import Mathlib

/-!
Shallow embedding of the ai-tutor embedding backend.

The definitions below are translated from the TypeScript sources:
error taxonomy from src/utils/error/customEmbeddingError.ts, the provider
error classifiers from src/services/embeddingService.ts and the math-image
service, the embedding generator from src/services/embeddingService.ts,
the persistence layer from src/models/embedding.ts, the HTTP handlers from
src/controller/embeddingController.ts, the seed script from
src/scripts/seedEmbeddings.ts and the batch image-to-LaTeX pipeline.
JavaScript truthiness and undefined-field semantics are modelled explicitly
with Option and small helper functions.
-/

namespace AiTutor

/-- Embedding vectors. Only lengths and (in)equality of vectors matter to the
properties below, so components are modelled as integers. -/
abbrev Vec := List Int

/-- Typed failure value. Each TS error class in customEmbeddingError.ts sets
name, code, statusCode and retryable in its constructor; this structure holds
those four fields plus the message. -/
structure TypedFailure where
  name : String
  message : String
  code : String
  statusCode : Nat
  retryable : Bool
deriving Repr, DecidableEq

/-- Base class EmbeddingError(message, code, statusCode, retryable). -/
def EmbeddingError (message code : String) (statusCode : Nat) (retryable : Bool) : TypedFailure :=
  ⟨"EmbeddingError", message, code, statusCode, retryable⟩

/-- QuotaExceededError: code QUOTA_EXCEEDED, status 429 (TOOMANYREQUESTS), not retryable. -/
def QuotaExceededError (message : String) : TypedFailure :=
  ⟨"QuotaExceededError", message, "QUOTA_EXCEEDED", 429, false⟩

/-- APIKeyError: code INVALID_API_KEY, status 401 (UNAUTHORIZED), not retryable. -/
def APIKeyError (message : String) : TypedFailure :=
  ⟨"APIKeyError", message, "INVALID_API_KEY", 401, false⟩

/-- RateLimitError: code RATE_LIMIT, status 429 (TOOMANYREQUESTS), retryable. -/
def RateLimitError (message : String) : TypedFailure :=
  ⟨"RateLimitError", message, "RATE_LIMIT", 429, true⟩

/-- NetworkError: code NETWORK_ERROR, status 503 (SERVICEUNAVAILABLE), retryable. -/
def NetworkError (message : String) : TypedFailure :=
  ⟨"NetworkError", message, "NETWORK_ERROR", 503, true⟩

/-- Opaque error object thrown by the OpenAI client; the classifiers read its
status, code and message fields, any of which may be undefined. -/
structure ProviderError where
  status : Option Nat
  code : Option String
  message : Option String
deriving Repr, DecidableEq

/-- JavaScript comparison x >= n where x may be undefined: comparison with
undefined yields false. -/
def statusGE : Option Nat → Nat → Bool
  | some s, n => n ≤ s
  | none, _ => false

/-- JavaScript x || d for an optional string: undefined and the empty string
are falsy and fall back to d. -/
def jsOrString : Option String → String → String
  | some s, d => if s = "" then d else s
  | none, d => d

/-- JavaScript x || d for an optional numeric status: undefined and 0 are falsy. -/
def jsOrStatus : Option Nat → Nat → Nat
  | some s, d => if s = 0 then d else s
  | none, d => d

/-- JavaScript truthiness of an optional string: undefined and the empty
string are falsy. -/
def jsTruthy : Option String → Bool
  | some s => s ≠ ""
  | none => false

/-- JavaScript template-literal interpolation of a possibly-undefined string. -/
def jsTemplate : Option String → String
  | some s => s
  | none => "undefined"

namespace EmbeddingService

/-- Classifier handleOpenAIError from src/services/embeddingService.ts
(lines 14-48): a chain of early-throwing if statements, first match wins.
The console.error side effect is irrelevant to the returned value. -/
def handleOpenAIError (error : ProviderError) : TypedFailure :=
  if error.code = some "insufficient_quota" then
    QuotaExceededError "OpenAI quota exceeded. Please check your billing and plan."
  else if error.code = some "invalid_api_key" ∨ error.status = some 401 then
    APIKeyError "Invalid or missing OpenAI API key."
  else if error.code = some "rate_limit_exceeded" ∨ error.status = some 429 then
    RateLimitError "Rate limit exceeded. Please try again later."
  else if error.code = some "server_error" ∨ statusGE error.status 500 then
    NetworkError "OpenAI service is temporarily unavailable."
  else if error.code = some "ECONNRESET" ∨ error.code = some "ETIMEDOUT" ∨ error.code = some "ENOTFOUND" then
    NetworkError "Network error occurred while generating embeddings."
  else
    EmbeddingError ("Failed to generate embeddings: " ++ jsOrString error.message "Unknown error")
      "EMBEDDING_GENERATION_FAILED" 500 true

end EmbeddingService

namespace MathImageService

/-- Classifier handleOpenAIError from the math-image service (duplicate draft
of the classifier, lines 38-69): branches on status first, and its fall-through
carries error.status || 500. -/
def handleOpenAIError (error : ProviderError) : TypedFailure :=
  if error.status = some 401 then
    APIKeyError "Invalid or missing OpenAI API key"
  else if error.status = some 429 then
    if error.code = some "insufficient_quota" then
      EmbeddingError "OpenAI quota exceeded. Please check your billing and plan."
        "QUOTA_EXCEEDED" 429 false
    else
      RateLimitError "Rate limit exceeded. Please try again later."
  else if statusGE error.status 500 then
    NetworkError "OpenAI service is temporarily unavailable"
  else
    EmbeddingError ("OpenAI API error: " ++ jsTemplate error.message)
      "OPENAI_API_ERROR" (jsOrStatus error.status 500) true

end MathImageService

/-- Behaviour of the external embeddings endpoint for one call: either the
vector in response.data[0].embedding or the thrown client error. -/
abbrev Provider := String → Except ProviderError Vec

namespace EmbeddingService

/-- generateEmbeddings (lines 50-63): one provider call with the given text;
failures are routed through handleOpenAIError. The second component records
the inputs actually sent to the provider obligation, used to state that a
code path does or does not call the provider. -/
def generateEmbeddings (provider : Provider) (text : String) :
    Except TypedFailure Vec × List String :=
  (match provider text with
   | .ok v => .ok v
   | .error e => .error (handleOpenAIError e), [text])

/-- validateEmbeddingDimensions (lines 97-106). -/
def validateEmbeddingDimensions (embedding : Vec) (expectedDimensions : Nat) :
    Except TypedFailure Unit :=
  if embedding.length ≠ expectedDimensions then
    .error (EmbeddingError
      ("Embedding must have " ++ toString expectedDimensions ++ " dimensions, got "
        ++ toString embedding.length)
      "VALIDATION_ERROR" 400 false)
  else
    .ok ()

/-- generateCombinedEmbedding (lines 65-95): empty question or answer fails
validation before any provider call; otherwise the composite string is sent to
generateEmbeddings and the result's dimension is checked against the default
expectedDimensions of 1536. The catch-wrapper for non-EmbeddingError throwables
never fires here because every failure produced is already typed. -/
def generateCombinedEmbedding (provider : Provider) (question answer : String) :
    Except TypedFailure Vec × List String :=
  if question = "" ∨ answer = "" then
    (.error (EmbeddingError "Question and answer are required" "VALIDATION_ERROR" 400 false), [])
  else
    let combinedText := "Question: " ++ question ++ "\n" ++ "Answer: " ++ answer
    match generateEmbeddings provider combinedText with
    | (.error e, calls) => (.error e, calls)
    | (.ok embedding, calls) =>
      match validateEmbeddingDimensions embedding 1536 with
      | .error e => (.error e, calls)
      | .ok _ => (.ok embedding, calls)

end EmbeddingService

/-- Row of the questions table: id (gen_random_uuid, modelled as a counter
rendered to a string), the two text columns, the embedding vector and the two
timestamps (modelled as naturals). -/
structure Row where
  id : String
  question : String
  answer : String
  embedding : Vec
  createdAt : Nat
  updatedAt : Nat
deriving Repr, DecidableEq

/-- Database state: the rows of the questions table plus a counter standing in
for gen_random_uuid() and a clock standing in for new Date(). -/
structure Db where
  rows : List Row
  nextId : Nat
  now : Nat
deriving Repr, DecidableEq

/-- Raw INSERT INTO questions ... RETURNING: appends a row with a fresh id and
default-now timestamps. Uniqueness of ids holds by construction, so the
constraint-violation catch branches of the callers can never fire here. -/
def dbInsert (db : Db) (question answer : String) (embedding : Vec) : Row × Db :=
  let newRow : Row := ⟨toString db.nextId, question, answer, embedding, db.now, db.now⟩
  (newRow, ⟨db.rows ++ [newRow], db.nextId + 1, db.now⟩)

namespace EmbeddingModel

/-- Partial<Pick<CreateEmbeddingDto, question | answer>>: a field is either
absent (none) or present with a string value, possibly empty. -/
structure UpdateDto where
  question : Option String
  answer : Option String
deriving Repr, DecidableEq

/-- EmbeddingModel.create (src/models/embedding.ts lines 41-93): a plain
insert; the catch branches translate storage exceptions, which the pure model
cannot raise. -/
def create (db : Db) (question answer : String) (embedding : Vec) :
    Except TypedFailure (Row × Db) :=
  .ok (dbInsert db question answer embedding)

/-- ORDER BY created_at comparison used by findAll. -/
def createdAtLe (a b : Row) : Prop := a.createdAt ≤ b.createdAt

instance : DecidableRel createdAtLe := fun a b => Nat.decLe a.createdAt b.createdAt

instance : IsTotal Row createdAtLe := ⟨fun a b => Nat.le_total a.createdAt b.createdAt⟩

instance : IsTrans Row createdAtLe := ⟨fun _ _ _ hab hbc => Nat.le_trans hab hbc⟩

/-- List items returned by findAll (EmbeddingListResponseDto): no embedding. -/
structure ListItem where
  id : String
  question : String
  answer : String
  createdAt : Nat
deriving Repr, DecidableEq

/-- PaginationDto. -/
structure Pagination where
  limit : Nat
  offset : Nat
  total : Nat
deriving Repr, DecidableEq

/-- EmbeddingListDto. -/
structure ListResult where
  data : List ListItem
  pagination : Pagination
deriving Repr, DecidableEq

/-- EmbeddingModel.findAll (lines 95-127): SELECT ordered by created_at with
OFFSET and LIMIT; pagination.total is data.length, the count of rows in this
page, not the table count. -/
def findAll (db : Db) (limit offset : Nat) : ListResult :=
  let results := ((db.rows.insertionSort createdAtLe).drop offset).take limit
  let data := results.map (fun q => ListItem.mk q.id q.question q.answer q.createdAt)
  ⟨data, ⟨limit, offset, data.length⟩⟩

/-- EmbeddingModel.findById (lines 129-165). -/
def findById (db : Db) (id : String) : Except TypedFailure Row :=
  match db.rows.find? (fun q => q.id == id) with
  | none => .error (EmbeddingError "Question not found" "NOT_FOUND" 404 false)
  | some question => .ok question

/-- Effect of drizzle .set on one row: only the provided text fields and
updatedAt are written. The embedding column is never part of the set clause. -/
def applySet (u : UpdateDto) (now : Nat) (q : Row) : Row :=
  { q with
    question := u.question.getD q.question
    answer := u.answer.getD q.answer
    updatedAt := now }

/-- EmbeddingModel.update (lines 167-210): UPDATE ... RETURNING; an empty
returning set yields NOT_FOUND. -/
def update (db : Db) (id : String) (updates : UpdateDto) :
    Except TypedFailure (Row × Db) :=
  match db.rows.find? (fun q => q.id == id) with
  | none => .error (EmbeddingError "Question not found" "NOT_FOUND" 404 false)
  | some q =>
    .ok (applySet updates db.now q,
      { db with rows := db.rows.map (fun r => if r.id == id then applySet updates db.now r else r) })

end EmbeddingModel

namespace Controllers

/-- Response envelope: statusCode plus either the error fields or the record
payload. The list endpoint's envelope is ListResult itself. -/
structure Envelope where
  statusCode : Nat
  code : Option String
  error : Option String
  data : Option Row
deriving Repr, DecidableEq

/-- Envelope produced by the instanceof EmbeddingError catch branches. -/
def errorEnvelope (e : TypedFailure) : Envelope :=
  ⟨e.statusCode, some e.code, some e.message, none⟩

/-- createEmbedding (src/controller/embeddingController.ts lines 10-74). -/
def createEmbedding (provider : Provider) (db : Db) (question answer : Option String) :
    Envelope × Db :=
  if ¬ jsTruthy question ∨ ¬ jsTruthy answer then
    (⟨400, some "VALIDATION_ERROR", some "Question and answer are required", none⟩, db)
  else
    match (EmbeddingService.generateCombinedEmbedding provider (question.getD "") (answer.getD "")).1 with
    | .error e => (errorEnvelope e, db)
    | .ok embedding =>
      match EmbeddingModel.create db (question.getD "") (answer.getD "") embedding with
      | .error e => (errorEnvelope e, db)
      | .ok (newQuestion, db') => (⟨201, none, none, some newQuestion⟩, db')

/-- updateEmbedding (lines 145-217). When some provided text field is truthy
the handler reads the current row, falls back field-wise with JavaScript ||,
regenerates the combined embedding — and then calls EmbeddingModel.update with
only the text fields, so the regenerated vector is discarded. Otherwise the
raw update object is passed through to the model unchanged. -/
def updateEmbedding (provider : Provider) (db : Db) (id : String)
    (updates : EmbeddingModel.UpdateDto) : Envelope × Db :=
  if id = "" then
    (⟨400, some "MISSING_ID", some "Embedding ID is required", none⟩, db)
  else if jsTruthy updates.question ∨ jsTruthy updates.answer then
    match EmbeddingModel.findById db id with
    | .error e => (errorEnvelope e, db)
    | .ok currentEmbedding =>
      let question := jsOrString updates.question currentEmbedding.question
      let answer := jsOrString updates.answer currentEmbedding.answer
      match (EmbeddingService.generateCombinedEmbedding provider question answer).1 with
      | .error e => (errorEnvelope e, db)
      | .ok _embedding =>
        match EmbeddingModel.update db id ⟨some question, some answer⟩ with
        | .error e => (errorEnvelope e, db)
        | .ok (updatedEmbedding, db') => (⟨200, none, none, some updatedEmbedding⟩, db')
  else
    match EmbeddingModel.update db id updates with
    | .error e => (errorEnvelope e, db)
    | .ok (updatedEmbedding, db') => (⟨200, none, none, some updatedEmbedding⟩, db')

end Controllers

namespace SeedScript

/-- Local generateCombinedEmbedding of seedEmbeddings.ts (lines 32-36): builds
the composite string and calls the service generateEmbeddings directly, with
no dimension validation. -/
def generateCombinedEmbedding (provider : Provider) (question answer : String) :
    Except TypedFailure Vec :=
  (EmbeddingService.generateEmbeddings provider
    ("Question: " ++ question ++ "\n" ++ "Answer: " ++ answer)).1

/-- One work item of the seed pipeline. -/
structure Pair where
  question : String
  answer : String
  unit : String
  questionNumber : String
deriving Repr, DecidableEq

/-- One batch item of seedEmbeddings (lines 135-157): generate the combined
embedding, insert the row directly with db.insert, return true on success and
false on any caught error. -/
def seedPair (provider : Provider) (db : Db) (pair : Pair) : Db × Bool :=
  match generateCombinedEmbedding provider pair.question pair.answer with
  | .error _ => (db, false)
  | .ok embedding => ((dbInsert db pair.question pair.answer embedding).2, true)

end SeedScript

namespace ImagePipeline

/-- Exponential backoff of convertImageToLatexText: Math.pow(2, attempt) * 1000. -/
def backoffDelay (attempt : Nat) : Nat := 2 ^ attempt * 1000

/-- Retry loop of convertImageToLatexText (batch script lines 59-88),
parameterised by the per-attempt outcome of convertMathImageToLatex. Returns
the final string together with the list of backoff delays slept. The fuel
argument bounds the for loop; the loop body runs for attempts 1..maxRetries. -/
def convertFrom (convert : Nat → Except TypedFailure String) (maxRetries : Nat) :
    Nat → Nat → String × List Nat
  | _, 0 => ("[Error converting image: Max retries exceeded]", [])
  | attempt, fuel + 1 =>
    match convert attempt with
    | .ok latexResult => (latexResult, [])
    | .error e =>
      if e.statusCode = 429 ∧ attempt < maxRetries then
        let rest := convertFrom convert maxRetries (attempt + 1) fuel
        (rest.1, backoffDelay attempt :: rest.2)
      else
        ("[Error converting image: " ++ e.message ++ "]", [])

/-- convertImageToLatexText with maxRetries = 3: a total function — every
failure is caught and rendered into the returned string, never rethrown. -/
def convertImageToLatexText (convert : Nat → Except TypedFailure String) :
    String × List Nat :=
  convertFrom convert 3 1 3

/-- One grouped work item of processImagesToLatex: composite key
unit_questionNumber with the optional question and answer image paths. -/
structure Group where
  key : String
  question : Option String
  answer : Option String
deriving Repr, DecidableEq

/-- Per-attempt conversion outcome for one image path, supplied by the
environment. -/
abbrev Converter := String → Nat → Except TypedFailure String

/-- Mutable state of one pipeline run: the processedKeys set, the number of
pairs appended to results, and the number of already-processed skips. -/
structure RunState where
  processedKeys : List String
  succeeded : Nat
  skipped : Nat
deriving Repr, DecidableEq

/-- Outcome of one run: counters, the final key set, and the checkpoint left
on disk after the run. -/
structure RunResult where
  succeeded : Nat
  skipped : Nat
  processedKeys : List String
  checkpointAfter : Option (List String)
deriving Repr, DecidableEq

/-- One item of the batch loop (lines 131-165): keys already in processedKeys
are skipped; incomplete pairs are warned and dropped without being marked;
otherwise both images are converted — convertImageToLatexText always returns a
string — and the key is marked processed and the pair counted into results. -/
def processGroup (convert : Converter) (st : RunState) (g : Group) : RunState :=
  if st.processedKeys.contains g.key then
    { st with skipped := st.skipped + 1 }
  else
    match g.question, g.answer with
    | some qPath, some aPath =>
      let _questionLatex := convertImageToLatexText (convert qPath)
      let _answerLatex := convertImageToLatexText (convert aPath)
      { st with processedKeys := st.processedKeys ++ [g.key], succeeded := st.succeeded + 1 }
    | _, _ => st

/-- processImagesToLatex (lines 93-204), with the bounded concurrent batches
sequentialised: batching only schedules items, every item resolves and the
counters do not depend on the batch size. The run loads processedKeys from the
checkpoint if present, folds over all groups, and finally deletes the progress
file (lines 199-203), so a completed run always leaves no checkpoint. -/
def processImagesToLatex (convert : Converter) (checkpoint : Option (List String))
    (groups : List Group) : RunResult :=
  let init : RunState := ⟨checkpoint.getD [], 0, 0⟩
  let final := groups.foldl (processGroup convert) init
  ⟨final.succeeded, final.skipped, final.processedKeys, none⟩

end ImagePipeline

/-- Provider stub for the update scenario: a fixed valid-length vector. -/
def c1Provider : Provider := fun _ => .ok (List.replicate 1536 1)

/-- Stored row before the update scenario. -/
def c1Row : Row := ⟨"1", "q0", "a0", List.replicate 1536 7, 0, 0⟩

/-- Database before the update scenario; the clock is at 5. -/
def c1Db : Db := ⟨[c1Row], 2, 5⟩

/-- Conversion stub for the pipeline scenarios: every attempt succeeds. -/
def c2Conv : ImagePipeline.Converter := fun _ _ => .ok "L"

/-- One-pair corpus for the pipeline idempotence scenario. -/
def c2Groups : List ImagePipeline.Group := [⟨"algebra_1", some "q.png", some "a.png"⟩]

/-- Conversion outcomes failing with NetworkError on attempt 1 and succeeding
afterwards. -/
def c3NetConv : Nat → Except TypedFailure String := fun a =>
  if a = 1 then .error (NetworkError "Network error occurred while generating embeddings.")
  else .ok "ok"

/-- Conversion outcomes failing with QuotaExceededError on attempt 1 and
succeeding afterwards. -/
def c3QuotaConv : Nat → Except TypedFailure String := fun a =>
  if a = 1 then .error (QuotaExceededError "quota") else .ok "ok"

/-- Provider stub returning a 3-element vector, shorter than 1536. -/
def c7Provider : Provider := fun _ => .ok [1, 2, 3]

/-- Work item for the seed-path scenario. -/
def c7Pair : SeedScript.Pair := ⟨"q", "a", "algebra", "1"⟩

/-- Three rows with distinct creation times, listed out of creation order. -/
def c9Db : Db :=
  ⟨[⟨"2", "qb", "ab", [2], 1, 1⟩, ⟨"1", "qa", "aa", [1], 0, 0⟩, ⟨"3", "qc", "ac", [3], 2, 2⟩], 4, 9⟩

/-- Database for the empty-string update scenario; the clock is at 7. -/
def c10Db : Db := ⟨[⟨"1", "q0", "a0", [5], 0, 0⟩], 2, 7⟩

end AiTutor
namespace AiTutor

/-- Claim C4 (counterexample): a provider error with status 429 and code
invalid_api_key is classified as InvalidCredential by the embedding-service
classifier, not RateLimited, refuting the claim that every non-quota 429
yields RateLimited regardless of the code field. -/
theorem c4_429_invalid_api_key_counterexample :
    (EmbeddingService.handleOpenAIError ⟨some 429, some "invalid_api_key", some "m"⟩).name
      = "APIKeyError" ∧
    (EmbeddingService.handleOpenAIError ⟨some 429, some "invalid_api_key", some "m"⟩).name
      ≠ "RateLimitError" ∧
    (EmbeddingService.handleOpenAIError ⟨some 429, some "invalid_api_key", some "m"⟩).retryable
      = false := by
  decide

/-- Claim C4 (amended): for status-429 provider errors, code insufficient_quota
yields QuotaExceeded with retryable false in both classifiers; in the
embedding-service classifier code invalid_api_key yields InvalidCredential,
and every remaining 429 yields RateLimited with retryable true; in the
math-image classifier every non-quota 429 yields RateLimited with retryable
true regardless of the code field. -/
theorem c4_429_classification (e : ProviderError) (h429 : e.status = some 429) :
    (e.code = some "insufficient_quota" →
      EmbeddingService.handleOpenAIError e =
        QuotaExceededError "OpenAI quota exceeded. Please check your billing and plan." ∧
      MathImageService.handleOpenAIError e =
        EmbeddingError "OpenAI quota exceeded. Please check your billing and plan."
          "QUOTA_EXCEEDED" 429 false) ∧
    (e.code = some "invalid_api_key" →
      EmbeddingService.handleOpenAIError e = APIKeyError "Invalid or missing OpenAI API key.") ∧
    (e.code ≠ some "insufficient_quota" → e.code ≠ some "invalid_api_key" →
      (EmbeddingService.handleOpenAIError e).name = "RateLimitError" ∧
      (EmbeddingService.handleOpenAIError e).retryable = true) ∧
    (e.code ≠ some "insufficient_quota" →
      (MathImageService.handleOpenAIError e).name = "RateLimitError" ∧
      (MathImageService.handleOpenAIError e).retryable = true) := by
  obtain ⟨s, c, m⟩ := e
  simp only at h429
  subst h429
  refine ⟨?_, ?_, ?_, ?_⟩
  · intro hq
    simp only at hq
    subst hq
    exact ⟨rfl, rfl⟩
  · intro hk
    simp only at hk
    subst hk
    rfl
  · intro hq hk
    constructor <;>
      simp [EmbeddingService.handleOpenAIError, hq, hk, RateLimitError]
  · intro hq
    constructor <;>
      simp [MathImageService.handleOpenAIError, hq, RateLimitError]

/-- Claim C4 (witness): the amended classification evaluated at concrete
status-429 errors with each relevant code. -/
theorem c4_429_classification_witness :
    (EmbeddingService.handleOpenAIError ⟨some 429, some "insufficient_quota", none⟩ =
      QuotaExceededError "OpenAI quota exceeded. Please check your billing and plan.") ∧
    (EmbeddingService.handleOpenAIError ⟨some 429, some "invalid_api_key", none⟩ =
      APIKeyError "Invalid or missing OpenAI API key.") ∧
    ((EmbeddingService.handleOpenAIError ⟨some 429, some "other", none⟩).name = "RateLimitError") ∧
    ((MathImageService.handleOpenAIError ⟨some 429, some "other", none⟩).name = "RateLimitError") :=
  ⟨((c4_429_classification ⟨some 429, some "insufficient_quota", none⟩ rfl).1 rfl).1,
   (c4_429_classification ⟨some 429, some "invalid_api_key", none⟩ rfl).2.1 rfl,
   ((c4_429_classification ⟨some 429, some "other", none⟩ rfl).2.2.1
     (by decide) (by decide)).1,
   ((c4_429_classification ⟨some 429, some "other", none⟩ rfl).2.2.2 (by decide)).1⟩

/-- Claim C5 (counterexample): a provider error with status 401 and code
insufficient_quota is classified as QuotaExceeded, not InvalidCredential,
because the embedding-service classifier checks the quota code first. -/
theorem c5_401_quota_code_counterexample :
    (EmbeddingService.handleOpenAIError ⟨some 401, some "insufficient_quota", none⟩).name
      = "QuotaExceededError" ∧
    (EmbeddingService.handleOpenAIError ⟨some 401, some "insufficient_quota", none⟩).name
      ≠ "APIKeyError" := by
  decide

/-- Claim C5 (amended): every provider error with status 401 whose code is not
insufficient_quota is classified as InvalidCredential. -/
theorem c5_401_classification (e : ProviderError) (h401 : e.status = some 401)
    (hq : e.code ≠ some "insufficient_quota") :
    EmbeddingService.handleOpenAIError e = APIKeyError "Invalid or missing OpenAI API key." := by
  obtain ⟨s, c, m⟩ := e
  simp only at h401 hq
  subst h401
  simp [EmbeddingService.handleOpenAIError, hq]

/-- Claim C5 (witness): the amended 401 rule evaluated at a concrete error. -/
theorem c5_401_classification_witness :
    EmbeddingService.handleOpenAIError ⟨some 401, some "bad_request", none⟩ =
      APIKeyError "Invalid or missing OpenAI API key." :=
  c5_401_classification ⟨some 401, some "bad_request", none⟩ rfl (by decide)

/-- Claim C6 (counterexample): a provider error with status 403, matched by no
specific rule, is wrapped with httpStatus 500 even though its own status is
present, refuting the claim that the Unclassified failure carries the original
status. -/
theorem c6_unclassified_status_counterexample :
    (EmbeddingService.handleOpenAIError ⟨some 403, some "forbidden", some "boom"⟩).statusCode
      = 500 ∧
    (EmbeddingService.handleOpenAIError ⟨some 403, some "forbidden", some "boom"⟩).code
      = "EMBEDDING_GENERATION_FAILED" ∧
    (EmbeddingService.handleOpenAIError ⟨some 403, some "forbidden", some "boom"⟩).message
      = "Failed to generate embeddings: boom" ∧
    (403 : Nat) ≠ 500 := by
  decide

/-- Claim C6 (amended): every provider error matching none of the specific
rules of the embedding-service classifier is wrapped as an unclassified
EMBEDDING_GENERATION_FAILED failure whose httpStatus is always 500 — even when
the original status is present — and whose message carries the original
message (or Unknown error when absent). -/
theorem c6_unclassified_always_500 (e : ProviderError)
    (hq : e.code ≠ some "insufficient_quota")
    (hk : e.code ≠ some "invalid_api_key") (h401 : e.status ≠ some 401)
    (hr : e.code ≠ some "rate_limit_exceeded") (h429 : e.status ≠ some 429)
    (hs : e.code ≠ some "server_error") (h500 : statusGE e.status 500 = false)
    (hcr : e.code ≠ some "ECONNRESET") (hct : e.code ≠ some "ETIMEDOUT")
    (hcn : e.code ≠ some "ENOTFOUND") :
    EmbeddingService.handleOpenAIError e =
      EmbeddingError ("Failed to generate embeddings: " ++ jsOrString e.message "Unknown error")
        "EMBEDDING_GENERATION_FAILED" 500 true := by
  simp [EmbeddingService.handleOpenAIError, hq, hk, h401, hr, h429, hs, h500, hcr, hct, hcn]

/-- Claim C6 (witness): the amended fall-through rule evaluated at a concrete
error whose status 403 is present yet the wrapped failure carries 500. -/
theorem c6_unclassified_always_500_witness :
    EmbeddingService.handleOpenAIError ⟨some 403, some "forbidden", some "boom"⟩ =
      EmbeddingError "Failed to generate embeddings: boom" "EMBEDDING_GENERATION_FAILED" 500 true := by
  have h := c6_unclassified_always_500 ⟨some 403, some "forbidden", some "boom"⟩
    (by decide) (by decide) (by decide) (by decide) (by decide) (by decide) (by decide)
    (by decide) (by decide) (by decide)
  simpa using h

/-- Claim C8: generateCombinedEmbedding fails with the VALIDATION_ERROR typed
failure and performs no provider call when either input is empty, and
otherwise sends exactly the composite string Question-newline-Answer to the
provider. -/
theorem c8_generate_combined_contract (provider : Provider) (question answer : String) :
    ((question = "" ∨ answer = "") →
      EmbeddingService.generateCombinedEmbedding provider question answer =
        (.error (EmbeddingError "Question and answer are required" "VALIDATION_ERROR" 400 false),
          [])) ∧
    (question ≠ "" → answer ≠ "" →
      (EmbeddingService.generateCombinedEmbedding provider question answer).2 =
        ["Question: " ++ question ++ "\n" ++ "Answer: " ++ answer]) := by
  constructor
  · intro h
    simp [EmbeddingService.generateCombinedEmbedding, h]
  · intro hq ha
    rw [EmbeddingService.generateCombinedEmbedding, if_neg (by simp [hq, ha])]
    unfold EmbeddingService.generateEmbeddings
    cases hp : provider ("Question: " ++ question ++ "\n" ++ "Answer: " ++ answer) with
    | ok v =>
      simp only [hp]
      cases hv : EmbeddingService.validateEmbeddingDimensions v 1536 <;> simp [hv]
    | error e => simp [hp]

/-- Claim C8 (witness): the contract evaluated at an empty question and at a
concrete non-empty pair. -/
theorem c8_generate_combined_contract_witness :
    (EmbeddingService.generateCombinedEmbedding (fun _ => .ok []) "" "x" =
      (.error (EmbeddingError "Question and answer are required" "VALIDATION_ERROR" 400 false),
        [])) ∧
    ((EmbeddingService.generateCombinedEmbedding (fun _ => .ok []) "x" "y").2 =
      ["Question: x\nAnswer: y"]) :=
  ⟨(c8_generate_combined_contract (fun _ => .ok []) "" "x").1 (Or.inl rfl),
   (c8_generate_combined_contract (fun _ => .ok []) "x" "y").2 (by decide) (by decide)⟩

end AiTutor
namespace AiTutor

/-- Helper: when the provider returns a vector of the expected length 1536 for
the composite string, generateCombinedEmbedding succeeds with that vector. -/
theorem genCombined_ok (provider : Provider) (question answer : String) (v : Vec)
    (hq : question ≠ "") (ha : answer ≠ "")
    (hp : provider ("Question: " ++ question ++ "\n" ++ "Answer: " ++ answer) = .ok v)
    (hlen : v.length = 1536) :
    (EmbeddingService.generateCombinedEmbedding provider question answer).1 = .ok v := by
  rw [EmbeddingService.generateCombinedEmbedding, if_neg (by simp [hq, ha])]
  unfold EmbeddingService.generateEmbeddings
  simp only [hp]
  rw [EmbeddingService.validateEmbeddingDimensions, if_neg (by simp [hlen])]

/-- Helper: when the provider returns a vector whose length is not 1536 for
the composite string, generateCombinedEmbedding fails with VALIDATION_ERROR. -/
theorem genCombined_bad_dims (provider : Provider) (question answer : String) (v : Vec)
    (hq : question ≠ "") (ha : answer ≠ "")
    (hp : provider ("Question: " ++ question ++ "\n" ++ "Answer: " ++ answer) = .ok v)
    (hlen : v.length ≠ 1536) :
    (EmbeddingService.generateCombinedEmbedding provider question answer).1 =
      .error (EmbeddingError
        ("Embedding must have " ++ toString (1536 : Nat) ++ " dimensions, got "
          ++ toString v.length)
        "VALIDATION_ERROR" 400 false) := by
  rw [EmbeddingService.generateCombinedEmbedding, if_neg (by simp [hq, ha])]
  unfold EmbeddingService.generateEmbeddings
  simp only [hp]
  rw [EmbeddingService.validateEmbeddingDimensions, if_pos hlen]

/-- Helper: a successful findById pins down the result of the underlying
find? on the rows. -/
theorem find?_of_findById (db : Db) (id : String) (cur : Row)
    (h : EmbeddingModel.findById db id = .ok cur) :
    db.rows.find? (fun q => q.id == id) = some cur := by
  unfold EmbeddingModel.findById at h
  cases hf : db.rows.find? (fun q => q.id == id) with
  | none => rw [hf] at h; cases h
  | some q => rw [hf] at h; cases h; rfl

/-- Claim C9: findAll returns records ordered by creation time ascending and
its pagination.total equals the number of records returned in the page; in the
scenario of limit 1 against a table of 3 rows exactly 1 item is returned and
total is 1, not the table count 3. -/
theorem c9_findAll_ordering_and_total :
    (∀ (db : Db) (limit offset : Nat),
      (EmbeddingModel.findAll db limit offset).data.Pairwise
        (fun a b => a.createdAt ≤ b.createdAt) ∧
      (EmbeddingModel.findAll db limit offset).pagination.total =
        (EmbeddingModel.findAll db limit offset).data.length) ∧
    ((EmbeddingModel.findAll c9Db 1 0).data.length = 1 ∧
     (EmbeddingModel.findAll c9Db 1 0).pagination.total = 1 ∧
     c9Db.rows.length = 3 ∧
     (EmbeddingModel.findAll c9Db 1 0).pagination.total ≠ c9Db.rows.length) := by
  constructor
  · intro db limit offset
    constructor
    · have hs : (db.rows.insertionSort EmbeddingModel.createdAtLe).Pairwise
          EmbeddingModel.createdAtLe :=
        List.sorted_insertionSort EmbeddingModel.createdAtLe db.rows
      have hsub : ((((db.rows.insertionSort EmbeddingModel.createdAtLe).drop offset)).take
            limit).Sublist (db.rows.insertionSort EmbeddingModel.createdAtLe) :=
        (List.take_sublist _ _).trans (List.drop_sublist _ _)
      have hp := List.Pairwise.sublist hsub hs
      simp only [EmbeddingModel.findAll]
      exact List.pairwise_map.mpr (hp.imp (fun h => h))
    · rfl
  · decide

set_option maxRecDepth 8192 in
/-- Claim C1: code bug — updating a record's question returns 200 and rewrites
the text columns, but the row keeps the pre-update embedding even though the
regenerated embedding for the new text differs; the controller computes the
new vector and discards it. -/
theorem c1_update_never_writes_regenerated_embedding :
    (Controllers.updateEmbedding c1Provider c1Db "1" ⟨some "q1", none⟩).1.statusCode = 200 ∧
    (Controllers.updateEmbedding c1Provider c1Db "1" ⟨some "q1", none⟩).2.rows =
      [⟨"1", "q1", "a0", List.replicate 1536 7, 0, 5⟩] ∧
    (EmbeddingService.generateCombinedEmbedding c1Provider "q1" "a0").1 =
      .ok (List.replicate 1536 1) ∧
    List.replicate 1536 (7 : Int) ≠ List.replicate 1536 (1 : Int) := by
  refine ⟨rfl, rfl, rfl, ?_⟩
  intro h
  have h7 : (List.replicate 1536 (7 : Int)).head? = some 7 := rfl
  rw [h] at h7
  have h1 : (List.replicate 1536 (1 : Int)).head? = some 1 := rfl
  rw [h1] at h7
  exact absurd h7 (by decide)

/-- Claim C7 (counterexample): the seed pipeline persists a 3-element vector
returned by the provider — the batch item reports success and the stored row's
embedding has length 3, not 1536, with no ValidationFailed raised. -/
theorem c7_seed_path_counterexample :
    (SeedScript.seedPair c7Provider ⟨[], 0, 9⟩ c7Pair).2 = true ∧
    ((SeedScript.seedPair c7Provider ⟨[], 0, 9⟩ c7Pair).1.rows.map
      (fun r => r.embedding.length)) = [3] ∧
    (3 : Nat) ≠ 1536 := by
  decide

/-- Claim C7 (amended): a provider vector of length other than 1536 causes a
VALIDATION_ERROR failure with nothing persisted on the HTTP create and update
paths, but the batch seed pipeline inserts whatever vector the provider
returns without any dimension validation. -/
theorem c7_dimension_validation :
    (∀ (provider : Provider) (db : Db) (q a : String) (v : Vec),
      q ≠ "" → a ≠ "" →
      provider ("Question: " ++ q ++ "\n" ++ "Answer: " ++ a) = .ok v →
      v.length ≠ 1536 →
      (Controllers.createEmbedding provider db (some q) (some a)).1.statusCode = 400 ∧
      (Controllers.createEmbedding provider db (some q) (some a)).1.code =
        some "VALIDATION_ERROR" ∧
      (Controllers.createEmbedding provider db (some q) (some a)).2 = db) ∧
    (∀ (provider : Provider) (db : Db) (id : String) (body : EmbeddingModel.UpdateDto)
       (cur : Row) (v : Vec),
      id ≠ "" →
      (jsTruthy body.question ∨ jsTruthy body.answer) →
      EmbeddingModel.findById db id = .ok cur →
      provider ("Question: " ++ jsOrString body.question cur.question ++ "\n" ++ "Answer: "
        ++ jsOrString body.answer cur.answer) = .ok v →
      jsOrString body.question cur.question ≠ "" →
      jsOrString body.answer cur.answer ≠ "" →
      v.length ≠ 1536 →
      (Controllers.updateEmbedding provider db id body).1.statusCode = 400 ∧
      (Controllers.updateEmbedding provider db id body).1.code = some "VALIDATION_ERROR" ∧
      (Controllers.updateEmbedding provider db id body).2 = db) ∧
    (∀ (provider : Provider) (db : Db) (pair : SeedScript.Pair) (v : Vec),
      provider ("Question: " ++ pair.question ++ "\n" ++ "Answer: " ++ pair.answer) = .ok v →
      SeedScript.seedPair provider db pair =
        ((dbInsert db pair.question pair.answer v).2, true)) := by
  refine ⟨?_, ?_, ?_⟩
  · intro provider db q a v hq ha hp hlen
    rw [Controllers.createEmbedding, if_neg (by simp [jsTruthy, hq, ha])]
    simp only [Option.getD]
    rw [genCombined_bad_dims provider q a v hq ha hp hlen]
    exact ⟨rfl, rfl, rfl⟩
  · intro provider db id body cur v hid htruthy hfound hp hq ha hlen
    rw [Controllers.updateEmbedding, if_neg hid, if_pos htruthy, hfound]
    dsimp only
    rw [genCombined_bad_dims provider _ _ v hq ha hp hlen]
    exact ⟨rfl, rfl, rfl⟩
  · intro provider db pair v hp
    unfold SeedScript.seedPair SeedScript.generateCombinedEmbedding
      EmbeddingService.generateEmbeddings
    simp only [hp]

/-- Claim C7 (witness): the amended property evaluated at concrete inputs on
all three storing paths. -/
theorem c7_dimension_validation_witness :
    ((Controllers.createEmbedding c7Provider ⟨[], 0, 9⟩ (some "q") (some "a")).1.statusCode
      = 400) ∧
    ((Controllers.updateEmbedding c7Provider c10Db "1" ⟨some "q1", none⟩).1.statusCode = 400) ∧
    (SeedScript.seedPair c7Provider ⟨[], 0, 9⟩ c7Pair =
      ((dbInsert ⟨[], 0, 9⟩ "q" "a" [1, 2, 3]).2, true)) :=
  ⟨((c7_dimension_validation.1 c7Provider ⟨[], 0, 9⟩ "q" "a" [1, 2, 3]
      (by decide) (by decide) rfl (by decide)).1),
   ((c7_dimension_validation.2.1 c7Provider c10Db "1" ⟨some "q1", none⟩
      ⟨"1", "q0", "a0", [5], 0, 0⟩ [1, 2, 3]
      (by decide) (Or.inl (by decide)) rfl rfl (by decide) (by decide) (by decide)).1),
   c7_dimension_validation.2.2 c7Provider ⟨[], 0, 9⟩ c7Pair [1, 2, 3] rfl⟩

end AiTutor
namespace AiTutor

/-- Claim C10 (counterexample): a PUT whose only provided field is the empty
string takes the pass-through branch and persists the empty question with a
200 response — the old text is not kept, so setting a record's question to the
empty string through the update endpoint is possible. -/
theorem c10_empty_update_counterexample :
    (Controllers.updateEmbedding c1Provider c10Db "1" ⟨some "", none⟩).1.statusCode = 200 ∧
    (Controllers.updateEmbedding c1Provider c10Db "1" ⟨some "", none⟩).2.rows =
      [⟨"1", "", "a0", [5], 0, 7⟩] ∧
    ("" : String) ≠ "q0" := by
  decide

/-- Claim C10 (amended): an empty-string field is treated as absent only when
some other provided field is non-empty — then the handler falls back to the
stored text and succeeds; when no provided field is non-empty the handler
passes the fields through verbatim to the model, so an empty string is
persisted. -/
theorem c10_empty_field_update_semantics :
    (∀ (provider : Provider) (db : Db) (id answer : String) (cur : Row) (v : Vec),
      id ≠ "" → answer ≠ "" →
      EmbeddingModel.findById db id = .ok cur →
      cur.question ≠ "" →
      provider ("Question: " ++ cur.question ++ "\n" ++ "Answer: " ++ answer) = .ok v →
      v.length = 1536 →
      (Controllers.updateEmbedding provider db id ⟨some "", some answer⟩).1.statusCode = 200 ∧
      (Controllers.updateEmbedding provider db id ⟨some "", some answer⟩).1.data =
        some (EmbeddingModel.applySet ⟨some cur.question, some answer⟩ db.now cur)) ∧
    (∀ (provider : Provider) (db : Db) (id : String) (cur : Row),
      id ≠ "" →
      EmbeddingModel.findById db id = .ok cur →
      (Controllers.updateEmbedding provider db id ⟨some "", none⟩).1.statusCode = 200 ∧
      (Controllers.updateEmbedding provider db id ⟨some "", none⟩).1.data =
        some (EmbeddingModel.applySet ⟨some "", none⟩ db.now cur) ∧
      ((Controllers.updateEmbedding provider db id ⟨some "", none⟩).1.data.map
        Row.question) = some "") := by
  constructor
  · intro provider db id answer cur v hid hans hfound hcq hp hlen
    rw [Controllers.updateEmbedding, if_neg hid,
      if_pos (Or.inr (by simp [jsTruthy, hans])), hfound]
    dsimp only
    have hq1 : jsOrString (some "") cur.question = cur.question := by simp [jsOrString]
    have ha1 : jsOrString (some answer) cur.answer = answer := by simp [jsOrString, hans]
    rw [hq1, ha1]
    rw [genCombined_ok provider cur.question answer v hcq hans hp hlen]
    dsimp only
    rw [EmbeddingModel.update, find?_of_findById db id cur hfound]
    exact ⟨rfl, rfl⟩
  · intro provider db id cur hid hfound
    rw [Controllers.updateEmbedding, if_neg hid,
      if_neg (by simp [jsTruthy])]
    rw [EmbeddingModel.update, find?_of_findById db id cur hfound]
    exact ⟨rfl, rfl, rfl⟩

set_option maxRecDepth 8192 in
/-- Claim C10 (witness): the amended semantics evaluated on a one-row table:
an empty question together with a non-empty answer keeps the stored question,
and an empty question alone is persisted as the empty string. -/
theorem c10_empty_field_update_semantics_witness :
    ((Controllers.updateEmbedding c1Provider c10Db "1" ⟨some "", some "a1"⟩).1.statusCode
      = 200) ∧
    ((Controllers.updateEmbedding c1Provider c10Db "1" ⟨some "", some "a1"⟩).1.data =
      some ⟨"1", "q0", "a1", [5], 0, 7⟩) ∧
    (((Controllers.updateEmbedding c1Provider c10Db "1" ⟨some "", none⟩).1.data.map
      Row.question) = some "") :=
  ⟨(c10_empty_field_update_semantics.1 c1Provider c10Db "1" "a1"
      ⟨"1", "q0", "a0", [5], 0, 0⟩ (List.replicate 1536 1)
      (by decide) (by decide) rfl (by decide) rfl rfl).1,
   (c10_empty_field_update_semantics.1 c1Provider c10Db "1" "a1"
      ⟨"1", "q0", "a0", [5], 0, 0⟩ (List.replicate 1536 1)
      (by decide) (by decide) rfl (by decide) rfl rfl).2,
   (c10_empty_field_update_semantics.2 c1Provider c10Db "1"
      ⟨"1", "q0", "a0", [5], 0, 0⟩ (by decide) rfl).2.2⟩

end AiTutor
namespace AiTutor

/-- Helper: when every group's key is already contained in the state's
processedKeys, the batch fold skips every group and changes nothing else. -/
theorem foldl_processGroup_all_skipped (convert : ImagePipeline.Converter)
    (groups : List ImagePipeline.Group) :
    ∀ (st : ImagePipeline.RunState),
      (∀ g ∈ groups, st.processedKeys.contains g.key = true) →
      groups.foldl (ImagePipeline.processGroup convert) st =
        ⟨st.processedKeys, st.succeeded, st.skipped + groups.length⟩ := by
  induction groups with
  | nil => intro st _; simp
  | cons g gs ih =>
    intro st h
    have hg : st.processedKeys.contains g.key = true := h g (List.mem_cons_self g gs)
    have hstep : ImagePipeline.processGroup convert st g =
        ⟨st.processedKeys, st.succeeded, st.skipped + 1⟩ := by
      rw [ImagePipeline.processGroup, if_pos hg]
    rw [List.foldl_cons, hstep,
      ih ⟨st.processedKeys, st.succeeded, st.skipped + 1⟩
        (fun g' hg' => h g' (List.mem_cons_of_mem g hg'))]
    simp [Nat.add_assoc, Nat.add_comm 1 gs.length]

/-- Claim C2 (counterexample): a first full run over a one-pair corpus deletes
the checkpoint, so the second run starts with an empty processedKeys set and
processes the pair again — its Succeeded count is 1, not 0, and its Skipped
count is 0, not the corpus size. -/
theorem c2_second_run_reprocesses_counterexample :
    (ImagePipeline.processImagesToLatex c2Conv
      (ImagePipeline.processImagesToLatex c2Conv none c2Groups).checkpointAfter
      c2Groups).succeeded = 1 ∧
    (ImagePipeline.processImagesToLatex c2Conv
      (ImagePipeline.processImagesToLatex c2Conv none c2Groups).checkpointAfter
      c2Groups).skipped = 0 ∧
    c2Groups.length = 1 := by
  decide

/-- Claim C2 (amended): every completed run deletes the checkpoint, so a
second full run re-processes the corpus; the zero-reprocessing behaviour holds
only when resuming from a surviving checkpoint that already contains every
key — then the run succeeds on 0 items and skips the whole corpus. -/
theorem c2_checkpoint_resume_semantics :
    (∀ (convert : ImagePipeline.Converter) (checkpoint : Option (List String))
       (groups : List ImagePipeline.Group),
      (ImagePipeline.processImagesToLatex convert checkpoint groups).checkpointAfter = none) ∧
    (∀ (convert : ImagePipeline.Converter) (keys : List String)
       (groups : List ImagePipeline.Group),
      (∀ g ∈ groups, keys.contains g.key = true) →
      (ImagePipeline.processImagesToLatex convert (some keys) groups).succeeded = 0 ∧
      (ImagePipeline.processImagesToLatex convert (some keys) groups).skipped =
        groups.length) := by
  constructor
  · intro convert checkpoint groups
    rfl
  · intro convert keys groups h
    unfold ImagePipeline.processImagesToLatex
    dsimp only [Option.getD]
    rw [foldl_processGroup_all_skipped convert groups ⟨keys, 0, 0⟩ (by simpa using h)]
    exact ⟨rfl, Nat.zero_add _⟩

/-- Claim C2 (witness): the amended semantics evaluated on the one-pair
corpus — a surviving checkpoint holding its key makes the run skip it. -/
theorem c2_checkpoint_resume_semantics_witness :
    ((ImagePipeline.processImagesToLatex c2Conv none c2Groups).checkpointAfter = none) ∧
    ((ImagePipeline.processImagesToLatex c2Conv (some ["algebra_1"]) c2Groups).succeeded
      = 0) ∧
    ((ImagePipeline.processImagesToLatex c2Conv (some ["algebra_1"]) c2Groups).skipped
      = 1) :=
  ⟨c2_checkpoint_resume_semantics.1 c2Conv none c2Groups,
   (c2_checkpoint_resume_semantics.2 c2Conv ["algebra_1"] c2Groups (by decide)).1,
   (c2_checkpoint_resume_semantics.2 c2Conv ["algebra_1"] c2Groups (by decide)).2⟩

/-- Claim C3 (counterexample): a retryable NetworkUnavailable failure on the
first attempt is terminal immediately — no retry, although attempt 2 would
succeed — while the non-retryable 429 QuotaExceeded failure is retried after a
2000 ms backoff and succeeds, both contradicting the claimed retry policy. -/
theorem c3_retry_kind_counterexample :
    ImagePipeline.convertImageToLatexText c3NetConv =
      ("[Error converting image: Network error occurred while generating embeddings.]", []) ∧
    ImagePipeline.convertImageToLatexText c3QuotaConv = ("ok", [2000]) ∧
    (NetworkError "Network error occurred while generating embeddings.").retryable = true ∧
    (QuotaExceededError "quota").retryable = false := by
  decide

/-- Claim C3 (amended): the within-run retry is keyed on httpStatus 429, not
on retryability: a first-attempt failure with any other status (including the
retryable 503 NetworkUnavailable) is terminal immediately with no backoff; a
status-429 failure below the attempt cap causes a backoff of
2000 * 2 ^ (attempt - 1) milliseconds and another attempt; a status-429
failure at the cap of 3 attempts is terminal; and the run's counters are
independent of the conversion outcomes, so no item failure aborts the batch or
the run. -/
theorem c3_retry_status429_policy :
    (∀ (convert : Nat → Except TypedFailure String) (e : TypedFailure),
      convert 1 = .error e → e.statusCode ≠ 429 →
      ImagePipeline.convertImageToLatexText convert =
        ("[Error converting image: " ++ e.message ++ "]", [])) ∧
    (∀ (convert : Nat → Except TypedFailure String) (e : TypedFailure)
       (maxRetries attempt fuel : Nat),
      convert attempt = .error e → e.statusCode = 429 → attempt < maxRetries →
      ImagePipeline.convertFrom convert maxRetries attempt (fuel + 1) =
        ((ImagePipeline.convertFrom convert maxRetries (attempt + 1) fuel).1,
          ImagePipeline.backoffDelay attempt ::
            (ImagePipeline.convertFrom convert maxRetries (attempt + 1) fuel).2)) ∧
    (∀ (attempt : Nat), 1 ≤ attempt →
      ImagePipeline.backoffDelay attempt = 2000 * 2 ^ (attempt - 1)) ∧
    (∀ (convert : Nat → Except TypedFailure String) (e : TypedFailure) (fuel : Nat),
      convert 3 = .error e → e.statusCode = 429 →
      ImagePipeline.convertFrom convert 3 3 (fuel + 1) =
        ("[Error converting image: " ++ e.message ++ "]", [])) ∧
    (∀ (convert1 convert2 : ImagePipeline.Converter) (checkpoint : Option (List String))
       (groups : List ImagePipeline.Group),
      ImagePipeline.processImagesToLatex convert1 checkpoint groups =
        ImagePipeline.processImagesToLatex convert2 checkpoint groups) := by
  refine ⟨?_, ?_, ?_, ?_, ?_⟩
  · intro convert e hc hs
    have h3 : (3 : Nat) = 2 + 1 := rfl
    rw [ImagePipeline.convertImageToLatexText, h3, ImagePipeline.convertFrom, hc]
    dsimp only
    rw [if_neg (by simp [hs])]
  · intro convert e maxRetries attempt fuel hc hs hlt
    rw [ImagePipeline.convertFrom, hc]
    dsimp only
    rw [if_pos ⟨hs, hlt⟩]
  · intro attempt h1
    obtain ⟨n, rfl⟩ := Nat.exists_eq_add_of_le h1
    rw [ImagePipeline.backoffDelay, Nat.add_comm 1 n, Nat.add_sub_cancel, pow_succ]
    ring
  · intro convert e fuel hc hs
    rw [ImagePipeline.convertFrom, hc]
    dsimp only
    rw [if_neg (by simp)]
  · intro convert1 convert2 checkpoint groups
    have hpg : ImagePipeline.processGroup convert1 = ImagePipeline.processGroup convert2 := rfl
    rw [ImagePipeline.processImagesToLatex, ImagePipeline.processImagesToLatex, hpg]

/-- Claim C3 (witness): the amended retry policy evaluated at concrete
conversion outcomes: an immediate non-429 terminal failure, one retried 429
failure, the backoff value at attempt 1, a terminal 429 at the attempt cap,
and two different converters yielding the same run counters. -/
theorem c3_retry_status429_policy_witness :
    (ImagePipeline.convertImageToLatexText c3NetConv =
      ("[Error converting image: Network error occurred while generating embeddings.]", [])) ∧
    (ImagePipeline.convertFrom c3QuotaConv 3 1 3 =
      ((ImagePipeline.convertFrom c3QuotaConv 3 2 2).1,
        ImagePipeline.backoffDelay 1 :: (ImagePipeline.convertFrom c3QuotaConv 3 2 2).2)) ∧
    (ImagePipeline.backoffDelay 1 = 2000 * 2 ^ 0) ∧
    (ImagePipeline.convertFrom (fun _ => .error (RateLimitError "r")) 3 3 1 =
      ("[Error converting image: r]", [])) ∧
    (ImagePipeline.processImagesToLatex c2Conv none c2Groups =
      ImagePipeline.processImagesToLatex (fun p _ => .ok p) none c2Groups) :=
  ⟨c3_retry_status429_policy.1 c3NetConv
      (NetworkError "Network error occurred while generating embeddings.") rfl (by decide),
   c3_retry_status429_policy.2.1 c3QuotaConv (QuotaExceededError "quota") 3 1 2 rfl rfl
      (by decide),
   c3_retry_status429_policy.2.2.1 1 (by decide),
   c3_retry_status429_policy.2.2.2.1 (fun _ => .error (RateLimitError "r"))
      (RateLimitError "r") 0 rfl rfl,
   c3_retry_status429_policy.2.2.2.2 c2Conv (fun p _ => .ok p) none c2Groups⟩

end AiTutor
